import Mathlib

/-!
Verification of the ESPWiFi secure-boot provisioning scripts.

This file shallowly embeds the Python provisioning scripts under
scripts/ (burn_utils.py, burn_efuse.py, burn_efuse_secure_boot.py,
enable_secureboot.py, espwifiSecure.py, gen_keys.py,
check_secure_boot_key.py) as pure Lean functions.  Side effects are made
explicit:

* every external process invocation is recorded as a value of the Cmd
  type, and each flow returns the list of commands it ran, in order;
* results of external processes (espefuse summary output, dump output,
  success or failure of espsecure and openssl) are inputs of the model,
  passed in environment records;
* sys.exit and SystemExit are modelled by the FlowRes type;
* the filesystem is a record of functions (existence, readability,
  content, mtime).

Python string primitives (in, split, strip, lower, re.findall for the
two fixed hex patterns) are implemented from scratch over List Char by
structural recursion, so that every theorem below can be evaluated by
the kernel on concrete inputs.  ASCII behaviour is modelled; every
string the scripts scan is ASCII.
-/

namespace ESPWiFi

/-! ## Python string primitives -/

/-- Python whitespace for str.strip and str.split with no argument:
space and the control characters 9..13 (tab, newline, vertical tab,
form feed, carriage return). -/
def pyIsSpace (c : Char) : Bool :=
  c.toNat == 32 || (9 ≤ c.toNat && c.toNat ≤ 13)

/-- ASCII lowercasing of one character, as Python str.lower does on
ASCII input. -/
def lowerChar (c : Char) : Char :=
  if 65 ≤ c.toNat && c.toNat ≤ 90 then Char.ofNat (c.toNat + 32) else c

/-- Python str.lower (ASCII range). -/
def pyLower (s : String) : String := String.mk (s.data.map lowerChar)

/-- A word character of the regular expressions used by the scripts
(ASCII part of the \w class): letter, digit or underscore. -/
def isWordChar (c : Char) : Bool :=
  (48 ≤ c.toNat && c.toNat ≤ 57) || (65 ≤ c.toNat && c.toNat ≤ 90) ||
    (97 ≤ c.toNat && c.toNat ≤ 122) || c.toNat == 95

/-- A lowercase hexadecimal digit, the character class [0-9a-f]. -/
def isHexLowerChar (c : Char) : Bool :=
  (48 ≤ c.toNat && c.toNat ≤ 57) || (97 ≤ c.toNat && c.toNat ≤ 102)

/-- Substring test on character lists: Python `needle in hay`. -/
def charsContains (hay needle : List Char) : Bool :=
  match hay with
  | [] => needle.isEmpty
  | _ :: t => needle.isPrefixOf hay || charsContains t needle

/-- Python `needle in hay` on strings. -/
def strContains (hay needle : String) : Bool :=
  charsContains hay.data needle.data

/-- Python s.startswith(pre). -/
def pyStartsWith (s pre : String) : Bool :=
  pre.data.isPrefixOf s.data

/-- Everything after the first occurrence of sep, if sep occurs:
Python hay.split(sep, 1)[1] guarded by `sep in hay`. -/
def afterFirst (sep hay : List Char) : Option (List Char) :=
  match hay with
  | [] => none
  | _ :: t =>
    if sep.isPrefixOf hay then some (hay.drop sep.length)
    else afterFirst sep t

/-- Everything before the first occurrence of sep (the whole list when
sep does not occur): Python hay.split(sep, 1)[0]. -/
def beforeFirst (sep hay : List Char) : List Char :=
  match hay with
  | [] => []
  | c :: t => if sep.isPrefixOf hay then [] else c :: beforeFirst sep t

/-- Split on a single-character separator, Python s.split(sep) for a
one-character sep.  Always returns at least one piece. -/
def splitOnChar (sep : Char) : List Char → List (List Char)
  | [] => [[]]
  | c :: rest =>
    let r := splitOnChar sep rest
    if c == sep then [] :: r
    else
      match r with
      | h :: t => (c :: h) :: t
      | [] => [[c]]

/-- The lines of a piece of process output, Python output.split("\n").
(splitlines, used in one place, is modelled the same way: all the
outputs scanned by the scripts use plain newlines.) -/
def pyLines (s : String) : List String :=
  (splitOnChar (Char.ofNat 10) s.data).map String.mk

/-- Python s.strip() on character lists. -/
def trimChars (cs : List Char) : List Char :=
  ((cs.dropWhile pyIsSpace).reverse.dropWhile pyIsSpace).reverse

/-- Python s.strip(). -/
def pyStrip (s : String) : String := String.mk (trimChars s.data)

/-- Python s.strip("\"'"): remove every leading and trailing single or
double quote. -/
def pyStripQuotes (s : String) : String :=
  let p := fun c => c == Char.ofNat 34 || c == Char.ofNat 39
  String.mk ((s.data.dropWhile p).reverse.dropWhile p).reverse

/-- Maximal runs of characters satisfying p, in order. -/
def runsAux (p : Char → Bool) : List Char → List Char → List (List Char)
  | [], acc => if acc.isEmpty then [] else [acc.reverse]
  | c :: t, acc =>
    if p c then runsAux p t (c :: acc)
    else if acc.isEmpty then runsAux p t []
    else acc.reverse :: runsAux p t []

/-- Maximal runs of characters satisfying p. -/
def runsOf (p : Char → Bool) (cs : List Char) : List (List Char) :=
  runsAux p cs []

/-- Python s.split() (split on whitespace runs, dropping empties). -/
def pySplitWs (s : String) : List String :=
  (runsOf (fun c => !pyIsSpace c) s.data).map String.mk

/-- re.findall of the pattern \b([0-9a-f]{n})\b over s.lower(): the
maximal word-character runs of length exactly n consisting of lowercase
hex digits.  The scripts use n = 2 (byte tokens) and n = 8 (32-bit word
tokens). -/
def findallHex (n : Nat) (s : String) : List String :=
  ((runsOf isWordChar (pyLower s).data).filter
      (fun r => r.length == n && r.all isHexLowerChar)).map String.mk

/-- Python "".join(l): concatenation in order. -/
def joinStrings : List String → String
  | [] => ""
  | s :: t => s ++ joinStrings t

/-! ## Effects model -/

/-- One external process invocation.  Each constructor records the
argv the scripts build (always prefixed by the Python interpreter for
the -m invocations):

* espefuseSummary p        : [py, -m, espefuse, --port, p, summary]
* espefuseDumpBlocks p c b : [py, -m, espefuse, --port, p, --chip, c,
                              dump_blocks, b]
* espefuseDump p           : [py, -m, espefuse, --port, p, dump]
* espefuseBurnEfuse p c f  : [py, -m, espefuse, --port, p,
                              (--chip, c when present), burn_efuse, f]
* espefuseBurnKey p c blk keyfile purpose :
    [py, -m, espefuse, --port, p, --chip, c, burn-key, blk, keyfile,
     purpose]
* espsecureVerifySignature k b :
    [py, -m, espsecure, verify-signature, --version, 2, --keyfile, k, b]
* espsecureGenerateSigningKey newStyle v out :
    [py, -m, espsecure, generate-signing-key (or generate_signing_key
     when newStyle is false), --version, v, out]
* opensslPkeyDer k    : [openssl, pkey, -in, k, -pubout, -outform, DER]
* opensslPkeyOut k o  : [openssl, pkey, -in, k, -pubout, -out, o] -/
inductive Cmd where
  | espefuseSummary (port : String)
  | espefuseDumpBlocks (port chip block : String)
  | espefuseDump (port : String)
  | espefuseBurnEfuse (port : String) (chip : Option String) (fuse : String)
  | espefuseBurnKey (port chip block keyfile purpose : String)
  | espsecureVerifySignature (keyfile binary : String)
  | espsecureGenerateSigningKey (newStyle : Bool) (version : Nat) (out : String)
  | opensslPkeyDer (keyfile : String)
  | opensslPkeyOut (keyfile out : String)
deriving DecidableEq

/-- A command is a vendor eFuse burn command when it invokes the
espefuse burn_efuse or burn-key subcommand. -/
def isBurnCmd : Cmd → Bool
  | .espefuseBurnEfuse _ _ _ => true
  | .espefuseBurnKey _ _ _ _ _ => true
  | _ => false

/-- How a script function ends: a normal return (the process later
exits 0 at the end of main) or a sys.exit / SystemExit with the given
code.  `raise SystemExit("message")` exits with code 1. -/
inductive FlowRes where
  | ret
  | exit (code : Nat)
deriving DecidableEq

/-- The process exit status produced by a FlowRes when the function is
the whole body of main. -/
def flowExitCode : FlowRes → Nat
  | .ret => 0
  | .exit c => c

/-- The filesystem as the scripts observe it: existence, read
permission, textual content (none when read_text raises) and
modification time in seconds (none when stat raises OSError). -/
structure FS where
  fileExists : String → Bool
  fileReadable : String → Bool
  fileContent : String → Option String
  mtime : String → Option Int

/-- Overwrite one file (used by the key-generation model for the file
the vendor tool creates). -/
def FS.write (fs : FS) (path content : String) : FS where
  fileExists := fun p => p == path || fs.fileExists p
  fileReadable := fun p => p == path || fs.fileReadable p
  fileContent := fun p => if p == path then some content else fs.fileContent p
  mtime := fs.mtime

/-- Ambient build context: the project directory (PROJECT_DIR), the
PlatformIO environment name (PIOENV or the default) and the program
name (PROGNAME, default "firmware"). -/
structure Ctx where
  projectDir : String
  pioenv : String
  progname : String

/-! ## burn_utils.py -/

/-- burn_utils._parse_sdkconfig_key_path: scan the SDK config content
line by line for CONFIG_SECURE_BOOT_SIGNING_KEY=, skipping blank lines
and comments; the value is stripped of whitespace and quotes and, when
relative, resolved under the project directory.  An empty value lets
the scan continue. -/
def parse_sdkconfig_key_path (projectDir : String) (content : String) :
    Option String :=
  go (pyLines content)
where
  go : List String → Option String
    | [] => none
    | line :: rest =>
      let stripped := pyStrip line
      if stripped.isEmpty || pyStartsWith stripped "#" then go rest
      else if pyStartsWith stripped "CONFIG_SECURE_BOOT_SIGNING_KEY=" then
        match afterFirst ['='] stripped.data with
        | none => go rest
        | some rhs =>
          let value := pyStripQuotes (pyStrip (String.mk rhs))
          if value.isEmpty then go rest
          else if pyStartsWith value "/" then some value
          else some (projectDir ++ "/" ++ value)
      else go rest

/-- burn_utils.signing_key_path: the key path parsed out of the SDK
config file when one was resolved and the search succeeds, otherwise
the hard-coded default esp32_secure_boot.pem under the project
directory.  The platformio.ini lookup (_get_sdkconfig_path) is modelled
by the optional content argument: some content when a config file was
found, none otherwise. -/
def signing_key_path (projectDir : String) (sdkconfig : Option String) :
    String :=
  match sdkconfig with
  | some content =>
    match parse_sdkconfig_key_path projectDir content with
    | some k => k
    | none => projectDir ++ "/esp32_secure_boot.pem"
  | none => projectDir ++ "/esp32_secure_boot.pem"

/-- The key actually used by a burn flow: burn_efuse_secure_boot.py
line `key = key_path or signing_key_path()` (an explicit argument wins;
Path arguments are always truthy). -/
def flow_key (projectDir : String) (sdkconfig : Option String)
    (keyArg : Option String) : String :=
  match keyArg with
  | some k => k
  | none => signing_key_path projectDir sdkconfig

/-- burn_utils.validate_key_file: the file must exist, be readable, and
its text must contain both PEM markers. -/
def validate_key_file (fs : FS) (keyPath : String) : Bool :=
  if !fs.fileExists keyPath then false
  else if !fs.fileReadable keyPath then false
  else
    match fs.fileContent keyPath with
    | none => false
    | some content =>
      if !(strContains content "-----BEGIN") ||
          !(strContains content "-----END") then false
      else true

/-- burn_utils.get_binary_paths: bootloader.bin and PROGNAME.bin under
.pio/build/PIOENV of the project directory. -/
def get_binary_paths (ctx : Ctx) : String × String :=
  let buildDir := ctx.projectDir ++ "/.pio/build/" ++ ctx.pioenv
  (buildDir ++ "/bootloader.bin", buildDir ++ "/" ++ ctx.progname ++ ".bin")

/-- burn_utils.verify_binaries_exist: (success, names of missing
files). -/
def verify_binaries_exist (ctx : Ctx) (fs : FS) : Bool × List String :=
  let (bootloader, firmware) := get_binary_paths ctx
  let missing :=
    (if !fs.fileExists bootloader then ["bootloader.bin"] else []) ++
      (if !fs.fileExists firmware then [ctx.progname ++ ".bin"] else [])
  (missing.length == 0, missing)

/-- Results of the external verification processes: success of
espsecure verify-signature per binary path. -/
structure Subproc where
  espsecureVerify : String → Bool

/-- burn_utils.verify_signed_binaries: when either binary is missing,
fail without running anything; otherwise run espsecure
verify-signature on the bootloader and on the firmware (both are always
run) and succeed only when both verify. -/
def verify_signed_binaries (ctx : Ctx) (fs : FS) (sub : Subproc)
    (keyPath : String) : List Cmd × Bool :=
  let (bootloader, firmware) := get_binary_paths ctx
  let (exist, _) := verify_binaries_exist ctx fs
  if !exist then ([], false)
  else
    let bootOk := sub.espsecureVerify bootloader
    let fwOk := sub.espsecureVerify firmware
    ([Cmd.espsecureVerifySignature keyPath bootloader,
      Cmd.espsecureVerifySignature keyPath firmware],
      bootOk && fwOk)

/-- burn_utils.verify_binary_timestamps: fail when a binary is missing
or stat raises; otherwise both the more-than-30-seconds branch (which
only warns) and the within-tolerance branch return True.  Modification
times are modelled in whole seconds (Python compares float seconds; the
comparison outcome never changes the returned value). -/
def verify_binary_timestamps (ctx : Ctx) (fs : FS) : Bool :=
  let (bootloader, firmware) := get_binary_paths ctx
  let (exist, _) := verify_binaries_exist ctx fs
  if !exist then false
  else
    match fs.mtime bootloader, fs.mtime firmware with
    | some bootMtime, some fwMtime =>
      let timeDiff := (bootMtime - fwMtime).natAbs
      if timeDiff > 30 then true else true
    | _, _ => false

/-- burn_utils.validate_pre_burn_checks: key-file check, signature
verification and timestamp check run in sequence; checks_passed starts
True and each failing check clears it. -/
def validate_pre_burn_checks (ctx : Ctx) (fs : FS) (sub : Subproc)
    (keyPath : String) : List Cmd × Bool :=
  let check1 := validate_key_file fs keyPath
  let (cmds2, check2) := verify_signed_binaries ctx fs sub keyPath
  let check3 := verify_binary_timestamps ctx fs
  (cmds2, check1 && check2 && check3)

/-- Result of a function that either produces a value or terminates the
process via SystemExit. -/
inductive Res (α : Type) where
  | ok (a : α)
  | exit (code : Nat)
deriving DecidableEq

/-- Auto-detection inputs of burn_utils.resolve_port: whether the glob
module imported, and the matches of the three fixed patterns. -/
structure PortEnv where
  globAvailable : Bool
  globTtyUSB : List String
  globCuUsb : List String
  globCuSLAB : List String

/-- The fixed device glob patterns, in scan order. -/
def portGlobPatterns : List String :=
  ["/dev/ttyUSB*", "/dev/cu.usb*", "/dev/cu.SLAB*"]

/-- The auto-detection half of burn_utils.resolve_port.  The second
component records which glob patterns were scanned. -/
def resolve_port_auto (pe : PortEnv) : Res String × List String :=
  if !pe.globAvailable then (.exit 1, [])
  else
    match pe.globTtyUSB ++ pe.globCuUsb ++ pe.globCuSLAB with
    | chosen :: _ => (.ok chosen, portGlobPatterns)
    | [] => (.exit 1, portGlobPatterns)

/-- burn_utils.resolve_port: a truthy (non-empty) explicit port is
checked for existence and returned verbatim; a missing path raises
SystemExit; None or an empty string falls back to glob
auto-detection. -/
def resolve_port (fs : FS) (pe : PortEnv) (port : Option String) :
    Res String × List String :=
  match port with
  | some p =>
    if p.data.isEmpty then resolve_port_auto pe
    else if !fs.fileExists p then (.exit 1, [])
    else (.ok p, [])
  | none => resolve_port_auto pe

/-- burn_utils.verify_device_accessible, applied to the stdout of the
espefuse summary invocation (none when the subprocess failed, timed out
or espefuse is missing). -/
def verify_device_accessible (summary : Option String) : Bool :=
  match summary with
  | some out =>
    strContains out "Detecting chip type" || strContains out "Chip"
  | none => false

/-- The chip-name table of burn_utils.detect_chip_type, in insertion
order. -/
def chip_map : List (String × String) :=
  [("esp32-c3", "esp32c3"), ("esp32c3", "esp32c3"),
   ("esp32-s3", "esp32s3"), ("esp32s3", "esp32s3"),
   ("esp32", "esp32"),
   ("esp32-c6", "esp32c6"), ("esp32c6", "esp32c6")]

/-- The line scan of burn_utils.detect_chip_type. -/
def detect_chip_lines : List String → Option String
  | [] => none
  | line :: rest =>
    let ll := pyLower line
    if strContains ll "detecting chip type" || strContains ll "chip type" then
      match chip_map.find? (fun p => strContains ll p.1) with
      | some p => some p.2
      | none =>
        if strContains line ":" then
          let chipPart :=
            pyLower (pyStrip
              (String.mk ((splitOnChar ':' line.data).getLastD [])))
          match chip_map.find? (fun p => strContains chipPart p.1) with
          | some p => some p.2
          | none => detect_chip_lines rest
        else detect_chip_lines rest
    else detect_chip_lines rest

/-- burn_utils.detect_chip_type, applied to the stdout of its espefuse
summary invocation (none when that subprocess raised). -/
def detect_chip_type (summary : Option String) : Option String :=
  match summary with
  | none => none
  | some out => detect_chip_lines (pyLines out)

/-- How the operator answered a confirmation prompt: a typed line, or a
keyboard interrupt at the prompt. -/
inductive PromptInput where
  | typed (s : String)
  | interrupt
deriving DecidableEq

/-- burn_utils.prompt_burn_confirmation: Ctrl+C exits 0; a typed answer
other than the literal BURN exits 1; the literal BURN returns (none =
returned, some c = sys.exit c). -/
def prompt_burn_confirmation : PromptInput → Option Nat
  | .interrupt => some 0
  | .typed s => if s ≠ "BURN" then some 1 else none

/-! ## espefuse summary parsing (burn_utils.show_device_info; the copies
in burn_efuse.py and espwifiSecure.py run the identical line scan) -/

/-- The parser state of the show_device_info line loop.  chipRevision
is initialised to Unknown and never assigned. -/
structure SummaryState where
  chipType : String
  chipRevision : String
  sb : Bool
  fe : Bool
  mac : String
deriving DecidableEq

/-- A line the SECURE_BOOT_EN branch fires on. -/
def sb_line (line : String) : Bool :=
  strContains (pyLower line) "secure_boot_en"

/-- The recognised false tokens of the SECURE_BOOT_EN branch. -/
def sb_false_tok (line : String) : Bool :=
  let ll := pyLower line
  strContains ll "= false" || strContains ll "= 0" || strContains ll "= 0b0"

/-- The recognised true tokens of the SECURE_BOOT_EN branch. -/
def sb_true_tok (line : String) : Bool :=
  let ll := pyLower line
  strContains ll "= true" || strContains ll "= 1" || strContains ll "= 0b1"

/-- A line the SPI_BOOT_CRYPT_CNT branch fires on. -/
def fe_line (line : String) : Bool :=
  strContains (pyLower line) "spi_boot_crypt_cnt"

/-- The recognised disable tokens of the SPI_BOOT_CRYPT_CNT branch. -/
def fe_false_tok (line : String) : Bool :=
  let ll := pyLower line
  strContains ll "= disable" || strContains ll "= 0"

/-- The recognised enable tokens of the SPI_BOOT_CRYPT_CNT branch. -/
def fe_true_tok (line : String) : Bool :=
  let ll := pyLower line
  strContains ll "= enable" || strContains ll "= 1" || strContains ll "= 3"

/-- One iteration of the show_device_info line loop.  In the MAC
branch, parts[1].strip().split() can be empty only for a line with
nothing between two equal signs, where Python would raise IndexError;
such a line leaves the state unchanged here. -/
def parse_summary_line (st : SummaryState) (line : String) : SummaryState :=
  let ll := pyLower line
  if strContains ll "detecting chip type" then
    match afterFirst ['.', '.', '.'] line.data with
    | some rhs =>
      { st with chipType := pyStrip (String.mk (beforeFirst ['.', '.', '.'] rhs)) }
    | none => st
  else if sb_line line then
    if sb_false_tok line then { st with sb := false }
    else if sb_true_tok line then { st with sb := true }
    else st
  else if fe_line line then
    if fe_false_tok line then { st with fe := false }
    else if fe_true_tok line then { st with fe := true }
    else st
  else if strContains ll "mac (block1)" && strContains ll "=" then
    match afterFirst ['='] line.data with
    | some rhs =>
      match pySplitWs (pyStrip (String.mk (beforeFirst ['='] rhs))) with
      | [] => st
      | macPart :: _ =>
        if strContains macPart ":" then { st with mac := macPart } else st
    | none => st
  else st

/-- The state before the line loop: chip type, revision and MAC
Unknown, secure boot and flash encryption initialised to False. -/
def init_summary_state : SummaryState :=
  { chipType := "Unknown", chipRevision := "Unknown",
    sb := false, fe := false, mac := "Unknown" }

/-- The whole line loop of show_device_info over the summary stdout. -/
def parse_summary (output : String) : SummaryState :=
  (pyLines output).foldl parse_summary_line init_summary_state

/-- The value burn_utils.show_device_info produces: SystemExit 1 when
the summary subprocess times out or fails, otherwise the parsed
security state (as the bool-or-None values the function returns) and
chip type. -/
inductive InfoResult where
  | exit (code : Nat)
  | info (sb fe : Option Bool) (chip : String)
deriving DecidableEq

/-- burn_utils.show_device_info, applied to the stdout of its espefuse
summary invocation (none when the subprocess raised).  On the success
path both security fields have been assigned a definite boolean before
the loop, so the function returns some value for each. -/
def show_device_info (summary : Option String) : InfoResult :=
  match summary with
  | none => .exit 1
  | some out =>
    let st := parse_summary out
    .info (some st.sb) (some st.fe) st.chipType

/-! ## check_secure_boot_key.py -/

/-- The byte-token extraction of get_device_key_digest over the
dump_blocks output: for every line containing a colon, take the text
after the first colon, lowercase it, and collect every
\b([0-9a-f]{2})\b match, in line order. -/
def extract_hex_bytes (out : String) : List String :=
  (pyLines out).foldl
    (fun acc line =>
      match afterFirst [':'] line.data with
      | some dataPart => acc ++ findallHex 2 (String.mk dataPart)
      | none => acc)
    []

/-- The word reassembly loop of get_device_key_digest: for each of the
eight 32-bit words, the four byte tokens hex_bytes[4*w : 4*w+4] in
reversed order. -/
def le_reassemble (hexBytes : List String) : List String :=
  ((List.range 8).map
    (fun w => ((hexBytes.drop (4 * w)).take 4).reverse)).flatten

/-- The fallback line scan of get_device_key_digest over the dump
output: entering the key block on a line mentioning block_key0 or
block4, collecting \b([0-9a-f]{8})\b words, stopping at an empty line
once eight words were seen or at another block header. -/
def dump_scan : List String → Bool → List String → List String
  | [], _, keyData => keyData
  | line :: rest, inKeyBlock, keyData =>
    let ll := pyLower line
    if strContains ll "block_key0" || strContains ll "block4" then
      dump_scan rest true (keyData ++ findallHex 8 ll)
    else if inKeyBlock then
      let hexVals := findallHex 8 ll
      if !hexVals.isEmpty then dump_scan rest true (keyData ++ hexVals)
      else if (pyStrip line).isEmpty then
        if keyData.length ≥ 8 then keyData
        else dump_scan rest true keyData
      else if strContains ll "block" && !(strContains ll "block_key0") then
        keyData
      else dump_scan rest true keyData
    else dump_scan rest false keyData

/-- The dump fallback of get_device_key_digest (dumpRes is the stdout
of the espefuse dump invocation, none when it raised). -/
def dump_fallback (dumpRes : Option String) : Option String :=
  match dumpRes with
  | none => none
  | some out2 =>
    let keyData := dump_scan (pyLines out2) false []
    if !keyData.isEmpty && keyData.length ≥ 8 then
      let digest := joinStrings (keyData.take 8)
      if digest.length == 64 then some (pyLower digest) else none
    else none

/-- check_secure_boot_key.get_device_key_digest: dump_blocks BLOCK_KEY0
first (dumpBlocksRes is its stdout, none when the subprocess raised, in
which case the shared except clause returns None); with at least 32
byte tokens the little-endian word reassembly is returned when it has
64 characters; otherwise the espefuse dump fallback runs. -/
def get_device_key_digest (dumpBlocksRes dumpRes : Option String) :
    Option String :=
  match dumpBlocksRes with
  | none => none
  | some out =>
    let hexBytes := extract_hex_bytes out
    if 32 ≤ hexBytes.length then
      let digest := joinStrings (le_reassemble hexBytes)
      if digest.length == 64 then some (pyLower digest)
      else dump_fallback dumpRes
    else dump_fallback dumpRes

/-- Modelled on the words of the specification, for comparison with the
code: the hex string obtained by taking the first 32 byte tokens,
grouping them into eight consecutive 4-byte words, and reversing the
byte order within each word. -/
def spec_le_digest (bytes : List String) : String :=
  joinStrings (((List.range 8).map
    (fun w => (((bytes.take 32).drop (4 * w)).take 4).reverse)).flatten)

/-- The comparison tail of check_secure_boot_key.main: exit 1 when the
signing key is missing or either digest could not be produced, exit 0
exactly when the two digest strings are equal.  (main also resolves the
serial port between these steps; port resolution does not affect the
comparison.) -/
def check_key_main (keyExists : Bool) (keyDigest deviceDigest : Option String) :
    Nat :=
  if !keyExists then 1
  else
    match keyDigest with
    | none => 1
    | some kd =>
      match deviceDigest with
      | none => 1
      | some dd => if kd == dd then 0 else 1

/-! ## burn_efuse.py -/

/-- The inline confirmation of burn_efuse.burn_efuse (also the one in
espwifiSecure.burn_efuse): Ctrl+C exits 0, and a typed answer other
than BURN also exits 0. -/
def burn_efuse_confirmation : PromptInput → Option Nat
  | .interrupt => some 0
  | .typed s => if s ≠ "BURN" then some 0 else none

/-- The world burn_efuse.burn_efuse runs in.  summary is the stdout of
the espefuse summary call of its local show_device_info (none when it
raised CalledProcessError); burnOk is the success of the final
burn_efuse subprocess. -/
structure BEEnv where
  globAvailable : Bool
  globTtyUSB : List String
  globCuUsb : List String
  globCuSLAB : List String
  summary : Option String
  promptInput : PromptInput
  burnOk : Bool

/-- burn_efuse.burn_efuse: its own port auto-detection (an explicit
port is used verbatim, with no existence check: the script tests
`port is None`), its local show_device_info (the identical summary line
scan), an abort with exit 1 when the parse reports secure boot
DISABLED, the inline confirmation, then the espefuse burn_efuse
SECURE_BOOT_EN invocation. -/
def burn_efuse_flow (env : BEEnv) (port : Option String) :
    List Cmd × FlowRes :=
  let portRes : Res String :=
    match port with
    | some p => .ok p
    | none =>
      if !env.globAvailable then .exit 1
      else
        match env.globTtyUSB ++ env.globCuUsb ++ env.globCuSLAB with
        | chosen :: _ => .ok chosen
        | [] => .exit 1
  match portRes with
  | .exit c => ([], .exit c)
  | .ok p =>
    let summaryCmd := Cmd.espefuseSummary p
    match show_device_info env.summary with
    | .exit c => ([summaryCmd], .exit c)
    | .info sb _ _ =>
      if sb == some false then ([summaryCmd], .exit 1)
      else
        match burn_efuse_confirmation env.promptInput with
        | some c => ([summaryCmd], .exit c)
        | none =>
          let burnCmd := Cmd.espefuseBurnEfuse p none "SECURE_BOOT_EN"
          if env.burnOk then ([summaryCmd, burnCmd], .ret)
          else ([summaryCmd, burnCmd], .exit 1)

/-! ## burn_efuse_secure_boot.py -/

/-- Results of the device-facing subprocesses of burn_secure_boot.
summary is the stdout of every espefuse summary invocation of the run
(verify_device_accessible, detect_chip_type and show_device_info query
the same device); dumpBlocks is the stdout of the key-check
dump_blocks call, which is run without check=True, so a failing exit
still yields its stdout; none models the exception path (timeout),
where has_key becomes None. -/
structure DeviceEnv where
  summary : Option String
  dumpBlocks : Option String

/-- The whole world burn_efuse_secure_boot.burn_secure_boot runs in. -/
structure SBEnv where
  ctx : Ctx
  fs : FS
  sdkconfig : Option String
  sub : Subproc
  portEnv : PortEnv
  device : DeviceEnv
  promptInput : PromptInput
  opensslOk : Bool
  tmpPath : String
  burnKeyOk : Bool
  burnEfuseOk : Bool
  burnEfuseAlready : Bool

/-- The key-presence check of burn_secure_boot: the 8-character hex
words of the dump_blocks stdout; has_key is None on the exception path,
False when no word was found or the first eight words are all zero,
True when one of the first eight words is non-zero. -/
def has_key_state (dumpBlocks : Option String) : Option Bool :=
  match dumpBlocks with
  | none => none
  | some out =>
    let hexWords := findallHex 8 out
    if hexWords.isEmpty then some false
    else some ((hexWords.take 8).any (fun w => w != "00000000"))

/-- burn_efuse_secure_boot.burn_secure_boot: validate the key file,
resolve the port, probe the device, detect the chip, run the pre-burn
checks, read the device state and the key block, exit 0 when secure
boot is already enabled with a non-zero key block, otherwise confirm
and burn the key digest and the SECURE_BOOT_EN fuse.  A burn-key
failure exits 1 in both of its subcases; a burn_efuse failure whose
error mentions "already" is treated as success. -/
def burn_secure_boot (env : SBEnv) (port : Option String)
    (keyPath : Option String) : List Cmd × FlowRes :=
  let key := flow_key env.ctx.projectDir env.sdkconfig keyPath
  if !validate_key_file env.fs key then ([], .exit 1)
  else
    match resolve_port env.fs env.portEnv port with
    | (.exit c, _) => ([], .exit c)
    | (.ok p, _) =>
      let summaryCmd := Cmd.espefuseSummary p
      if !verify_device_accessible env.device.summary then
        ([summaryCmd], .exit 1)
      else
        match detect_chip_type env.device.summary with
        | none => ([summaryCmd, summaryCmd], .exit 1)
        | some chip =>
          let vCmds := (validate_pre_burn_checks env.ctx env.fs env.sub key).1
          let vOk := (validate_pre_burn_checks env.ctx env.fs env.sub key).2
          let cmds0 := [summaryCmd, summaryCmd] ++ vCmds
          if !vOk then (cmds0, .exit 1)
          else
            match show_device_info env.device.summary with
            | .exit c => (cmds0 ++ [summaryCmd], .exit c)
            | .info sb _ _ =>
              let dumpCmd := Cmd.espefuseDumpBlocks p chip "BLOCK_KEY0"
              let cmds1 := cmds0 ++ [summaryCmd, dumpCmd]
              let hasKey := has_key_state env.device.dumpBlocks
              if sb == some true && hasKey == some true then (cmds1, .exit 0)
              else
                match prompt_burn_confirmation env.promptInput with
                | some c => (cmds1, .exit c)
                | none =>
                  let osslCmd := Cmd.opensslPkeyDer key
                  let cmds2 := cmds1 ++ [osslCmd]
                  if !env.opensslOk then (cmds2, .exit 1)
                  else
                    let burnKeyCmd :=
                      Cmd.espefuseBurnKey p chip "BLOCK_KEY0" env.tmpPath
                        "SECURE_BOOT_DIGEST0"
                    let cmds3 := cmds2 ++ [burnKeyCmd]
                    if !env.burnKeyOk then (cmds3, .exit 1)
                    else
                      let burnSbCmd :=
                        Cmd.espefuseBurnEfuse p (some chip) "SECURE_BOOT_EN"
                      let cmds4 := cmds3 ++ [burnSbCmd]
                      if env.burnEfuseOk then (cmds4, .ret)
                      else if env.burnEfuseAlready then (cmds4, .ret)
                      else (cmds4, .exit 1)

/-! ## enable_secureboot.py -/

/-- enable_secureboot.burn_secure_boot_efuse, the orchestrator's final
burn step: show the device info once more, return without burning when
the parse reports secure boot enabled, otherwise confirm and delegate
to burn_efuse_secure_boot.burn_secure_boot with the resolved port and
key. -/
def burn_secure_boot_efuse (env : SBEnv) (p key : String) :
    List Cmd × FlowRes :=
  let summaryCmd := Cmd.espefuseSummary p
  match show_device_info env.device.summary with
  | .exit c => ([summaryCmd], .exit c)
  | .info sb _ _ =>
    if sb == some true then ([summaryCmd], .ret)
    else
      match prompt_burn_confirmation env.promptInput with
      | some c => ([summaryCmd], .exit c)
      | none =>
        let (cmds, res) := burn_secure_boot env (some p) (some key)
        (summaryCmd :: cmds, res)

/-! ## Key generation (espwifiSecure.py and gen_keys.py) -/

/-- espwifiSecure.generate_key: refuse to overwrite an existing key
(SystemExit before any subprocess), otherwise run the new-style
espsecure generate-signing-key, falling back to the old-style spelling,
then chmod the file.  genContent stands for the key material the vendor
tool writes.  The result carries the commands run, the outcome and the
final filesystem. -/
def generate_key_espwifi (fs : FS) (outPath : String)
    (genNewOk genOldOk : Bool) (genContent : String) :
    List Cmd × FlowRes × FS :=
  if fs.fileExists outPath then ([], .exit 1, fs)
  else
    let cmdNew := Cmd.espsecureGenerateSigningKey true 2 outPath
    let cmdOld := Cmd.espsecureGenerateSigningKey false 2 outPath
    if genNewOk then ([cmdNew], .ret, fs.write outPath genContent)
    else if genOldOk then ([cmdNew, cmdOld], .ret, fs.write outPath genContent)
    else ([cmdNew, cmdOld], .exit 1, fs)

/-- gen_keys.extract_public_key: missing private key raises SystemExit;
otherwise openssl writes the public key file. -/
def extract_public_key (fs : FS) (privPath pubPath : String)
    (opensslOk : Bool) (pubContent : String) : List Cmd × FlowRes × FS :=
  if !fs.fileExists privPath then ([], .exit 1, fs)
  else
    let c := Cmd.opensslPkeyOut privPath pubPath
    if opensslOk then ([c], .ret, fs.write pubPath pubContent)
    else ([c], .exit 1, fs)

/-- gen_keys.generate_key: the same existence guard and key-generation
commands as the espwifiSecure variant, then, when extractPub is set,
public-key extraction whose SystemExit is caught (the flow still
returns normally).  pubPath stands for the derived
stem-plus-.pub.pem path. -/
def generate_key_gen (fs : FS) (outPath : String)
    (genNewOk genOldOk : Bool) (genContent : String)
    (extractPub : Bool) (pubPath : String) (opensslOk : Bool)
    (pubContent : String) : List Cmd × FlowRes × FS :=
  if fs.fileExists outPath then ([], .exit 1, fs)
  else
    let cmdNew := Cmd.espsecureGenerateSigningKey true 2 outPath
    let cmdOld := Cmd.espsecureGenerateSigningKey false 2 outPath
    let (genCmds, genRes, fs1) :
        List Cmd × FlowRes × FS :=
      if genNewOk then ([cmdNew], .ret, fs.write outPath genContent)
      else if genOldOk then ([cmdNew, cmdOld], .ret, fs.write outPath genContent)
      else ([cmdNew, cmdOld], .exit 1, fs)
    match genRes with
    | .exit c => (genCmds, .exit c, fs1)
    | .ret =>
      if extractPub then
        let (eCmds, _, fs2) :=
          extract_public_key fs1 outPath pubPath opensslOk pubContent
        (genCmds ++ eCmds, .ret, fs2)
      else (genCmds, .ret, fs1)

/-! ## Helper lemmas -/

/-- The shared confirmation returns (lets the flow continue) only on
the literal BURN. -/
lemma prompt_burn_confirmation_none {i : PromptInput}
    (h : prompt_burn_confirmation i = none) : i = .typed "BURN" := by
  cases i with
  | interrupt => simp [prompt_burn_confirmation] at h
  | typed s =>
    by_cases hs : s = "BURN"
    · subst hs; rfl
    · simp [prompt_burn_confirmation, hs] at h

/-- The inline confirmation of burn_efuse.py returns only on the
literal BURN. -/
lemma burn_efuse_confirmation_none {i : PromptInput}
    (h : burn_efuse_confirmation i = none) : i = .typed "BURN" := by
  cases i with
  | interrupt => simp [burn_efuse_confirmation] at h
  | typed s =>
    by_cases hs : s = "BURN"
    · subst hs; rfl
    · simp [burn_efuse_confirmation, hs] at h

/-- The pre-burn validation runs only espsecure verification commands,
never a burn command. -/
lemma validate_pre_burn_checks_no_burn (ctx : Ctx) (fs : FS) (sub : Subproc)
    (key : String) :
    ∀ c ∈ (validate_pre_burn_checks ctx fs sub key).1, isBurnCmd c = false := by
  intro c hc
  simp only [validate_pre_burn_checks, verify_signed_binaries] at hc
  split at hc
  · simp at hc
  · simp only [List.mem_cons, List.not_mem_nil, or_false] at hc
    rcases hc with h | h <;> subst h <;> rfl

/-! ## Claims -/

/-- C4: the pre-burn gate returns failure whenever the key-file check
fails or signature verification fails (for either binary their
conjunction is false), regardless of the timestamp check; and for two
existing binaries whose modification times differ by more than 30
seconds the timestamp sub-check still returns True (it only warns). -/
theorem c4_pre_burn_gate (ctx : Ctx) (fs : FS) (sub : Subproc) (key : String)
    (ctx2 : Ctx) (fs2 : FS) (bm fm : Int)
    (hfail : validate_key_file fs key = false ∨
      (verify_signed_binaries ctx fs sub key).2 = false)
    (hboot : fs2.fileExists (get_binary_paths ctx2).1 = true)
    (hfw : fs2.fileExists (get_binary_paths ctx2).2 = true)
    (hbm : fs2.mtime (get_binary_paths ctx2).1 = some bm)
    (hfm : fs2.mtime (get_binary_paths ctx2).2 = some fm)
    (_hdiff : 30 < (bm - fm).natAbs) :
    (validate_pre_burn_checks ctx fs sub key).2 = false ∧
    verify_binary_timestamps ctx2 fs2 = true := by
  constructor
  · simp only [validate_pre_burn_checks]
    rcases hfail with h | h <;> simp [h]
  · simp only [verify_binary_timestamps, verify_binaries_exist]
    rcases hp : get_binary_paths ctx2 with ⟨boot, fw⟩
    rw [hp] at hboot hfw hbm hfm
    simp only at hboot hfw hbm hfm
    simp [hboot, hfw, hbm, hfm]

/-- C4 witness: a concrete environment where the key check fails and
the binaries exist with mtimes 100 and 0. -/
theorem c4_witness :
    (validate_pre_burn_checks ⟨"/p", "e", "firmware"⟩
        ⟨fun p => p == "/p/.pio/build/e/bootloader.bin" ||
            p == "/p/.pio/build/e/firmware.bin",
          fun _ => false, fun _ => none,
          fun p => if p == "/p/.pio/build/e/bootloader.bin" then some 100
            else some 0⟩
        ⟨fun _ => true⟩ "/k.pem").2 = false ∧
    verify_binary_timestamps ⟨"/p", "e", "firmware"⟩
      ⟨fun p => p == "/p/.pio/build/e/bootloader.bin" ||
          p == "/p/.pio/build/e/firmware.bin",
        fun _ => false, fun _ => none,
        fun p => if p == "/p/.pio/build/e/bootloader.bin" then some 100
          else some 0⟩ = true :=
  c4_pre_burn_gate _ _ _ _ _ _ 100 0 (Or.inl (by decide))
    (by decide) (by decide) (by decide) (by decide) (by decide)

/-- C7: signing-key resolution precedence: an explicit key path wins;
otherwise the CONFIG_SECURE_BOOT_SIGNING_KEY value found by string
search in the SDK config content is used; absent both, the default
esp32_secure_boot.pem under the project directory is returned. -/
theorem c7_key_precedence (pd k k2 content : String) (sdk : Option String)
    (hparse : parse_sdkconfig_key_path pd content = some k2) :
    flow_key pd sdk (some k) = k ∧
    flow_key pd (some content) none = k2 ∧
    flow_key pd none none = pd ++ "/esp32_secure_boot.pem" ∧
    (∀ c, parse_sdkconfig_key_path pd c = none →
      flow_key pd (some c) none = pd ++ "/esp32_secure_boot.pem") := by
  refine ⟨rfl, ?_, rfl, ?_⟩
  · simp [flow_key, signing_key_path, hparse]
  · intro c hc
    simp [flow_key, signing_key_path, hc]

/-- C7 witness: a config content whose string search finds keys/sb.pem
(resolved under the project directory), an explicit override, and a
content with no match falling back to the default. -/
theorem c7_witness :
    flow_key "/proj" (some "CONFIG_SECURE_BOOT_SIGNING_KEY=keys/sb.pem")
        (some "/my/key.pem") = "/my/key.pem" ∧
    flow_key "/proj" (some "CONFIG_SECURE_BOOT_SIGNING_KEY=keys/sb.pem")
        none = "/proj/keys/sb.pem" ∧
    flow_key "/proj" none none = "/proj/esp32_secure_boot.pem" ∧
    (∀ c, parse_sdkconfig_key_path "/proj" c = none →
      flow_key "/proj" (some c) none = "/proj/esp32_secure_boot.pem") :=
  c7_key_precedence "/proj" "/my/key.pem" "/proj/keys/sb.pem"
    "CONFIG_SECURE_BOOT_SIGNING_KEY=keys/sb.pem" _ (by decide)

/-- C9: key generation never overwrites an existing key file: when the
output path exists, both generate_key variants terminate with SystemExit
(code 1) before running any command, and the filesystem is returned
unchanged. -/
theorem c9_no_overwrite (fs : FS) (out gc pub pc : String)
    (nOk oOk ep posl : Bool)
    (h : fs.fileExists out = true) :
    generate_key_espwifi fs out nOk oOk gc = ([], .exit 1, fs) ∧
    generate_key_gen fs out nOk oOk gc ep pub posl pc = ([], .exit 1, fs) := by
  constructor
  · simp [generate_key_espwifi, h]
  · simp [generate_key_gen, h]

/-- C9 witness: a filesystem on which the key file exists. -/
theorem c9_witness :
    generate_key_espwifi
        ⟨fun p => p == "/p/esp32_secure_boot.pem", fun _ => true,
          fun _ => some "old", fun _ => none⟩
        "/p/esp32_secure_boot.pem" true true "new"
      = ([], .exit 1,
          ⟨fun p => p == "/p/esp32_secure_boot.pem", fun _ => true,
            fun _ => some "old", fun _ => none⟩) ∧
    generate_key_gen
        ⟨fun p => p == "/p/esp32_secure_boot.pem", fun _ => true,
          fun _ => some "old", fun _ => none⟩
        "/p/esp32_secure_boot.pem" true true "new" true "/p/pub.pem" true "pub"
      = ([], .exit 1,
          ⟨fun p => p == "/p/esp32_secure_boot.pem", fun _ => true,
            fun _ => some "old", fun _ => none⟩) :=
  c9_no_overwrite _ _ _ _ _ _ _ _ _ (by decide)

/-- C10 counterexample: at the confirmation prompt of
burn_efuse.burn_efuse (one of the two prompts the claim covers), the
typed answer "no" terminates with exit status 0, not 1 as the claim
states for typed answers other than BURN. -/
theorem c10_counterexample :
    burn_efuse_confirmation (.typed "no") = some 0 ∧
    burn_efuse_confirmation (.typed "no") ≠ some 1 := by
  constructor <;> decide

/-- C10 as amended: a keyboard interrupt at either burn confirmation
prompt terminates with exit status 0, the status of a successful run; a
typed answer other than BURN exits 1 at the shared
prompt_burn_confirmation but exits 0 at the inline prompt of
burn_efuse.py; hence cancellation by interrupt is indistinguishable
from success by exit code alone. -/
theorem c10_amended (s : String) (h : s ≠ "BURN") :
    prompt_burn_confirmation .interrupt = some 0 ∧
    burn_efuse_confirmation .interrupt = some 0 ∧
    prompt_burn_confirmation (.typed s) = some 1 ∧
    burn_efuse_confirmation (.typed s) = some 0 := by
  refine ⟨rfl, rfl, ?_, ?_⟩ <;>
    simp [prompt_burn_confirmation, burn_efuse_confirmation, h]

/-- C10 witness: the amended statement at the typed answer "no". -/
theorem c10_witness :
    prompt_burn_confirmation .interrupt = some 0 ∧
    burn_efuse_confirmation .interrupt = some 0 ∧
    prompt_burn_confirmation (.typed "no") = some 1 ∧
    burn_efuse_confirmation (.typed "no") = some 0 :=
  c10_amended "no" (by decide)

/-- A summary fixture whose parse reports secure boot enabled, used by
the environments below. -/
def summary_enabled : String :=
  "Detecting chip type... ESP32-C3\nSECURE_BOOT_EN (BLOCK0) Secure boot: = True"

/-- The world of the C5 counterexample: a connected device whose parse
reports secure boot enabled, and an operator who types "no" at the
confirmation prompt of burn_efuse.py. -/
def c5_env : BEEnv where
  globAvailable := true
  globTtyUSB := []
  globCuUsb := []
  globCuSLAB := []
  summary := some summary_enabled
  promptInput := .typed "no"
  burnOk := true

/-- C5 counterexample: declining the burn confirmation of
burn_efuse.py with the typed answer "no" terminates the script with
exit code 0, not the exit code 1 the claim states for an
operator-declined confirmation. -/
theorem c5_counterexample :
    c5_env.promptInput = .typed "no" ∧
    (burn_efuse_flow c5_env (some "/dev/ttyUSB0")).2 = .exit 0 ∧
    flowExitCode (burn_efuse_flow c5_env (some "/dev/ttyUSB0")).2 ≠ 1 := by
  refine ⟨rfl, by decide, by decide⟩

/-- C5 as amended: scripts exit 0 on success and 1 on validation or
burn failure, and declining at the shared prompt_burn_confirmation
(used by burn_efuse_secure_boot.py and enable_secureboot.py) exits 1,
but the inline confirmation of burn_efuse.py exits 0 on a declined
typed answer. -/
theorem c5_amended (s : String) (benv : BEEnv) (p out : String)
    (hs : s ≠ "BURN")
    (hsum : benv.summary = some out)
    (hsb : (parse_summary out).sb = true)
    (hpi : benv.promptInput = .typed s) :
    prompt_burn_confirmation (.typed s) = some 1 ∧
    (burn_efuse_flow benv (some p)).2 = .exit 0 := by
  constructor
  · simp [prompt_burn_confirmation, hs]
  · simp [burn_efuse_flow, show_device_info, hsum, hsb,
      burn_efuse_confirmation, hpi, hs]

/-- C5 witness: the amended statement at the typed answer "no" in the
counterexample environment. -/
theorem c5_witness :
    prompt_burn_confirmation (.typed "no") = some 1 ∧
    (burn_efuse_flow c5_env (some "/dev/ttyUSB0")).2 = .exit 0 :=
  c5_amended "no" c5_env "/dev/ttyUSB0" summary_enabled
    (by decide) rfl (by decide) rfl

/-- The filesystem of the C8 counterexample: no path exists. -/
def c8_fs : FS where
  fileExists := fun _ => false
  fileReadable := fun _ => false
  fileContent := fun _ => none
  mtime := fun _ => none

/-- The glob world of the C8 counterexample: one ttyUSB device
present. -/
def c8_pe : PortEnv where
  globAvailable := true
  globTtyUSB := ["/dev/ttyUSB7"]
  globCuUsb := []
  globCuSLAB := []

/-- C8 counterexample: the explicitly supplied port /dev/missing is
not returned (resolve_port raises SystemExit because the path does not
exist), and an explicitly supplied empty string does trigger the glob
scan; both contradict the claim that every explicitly supplied port is
returned verbatim with no glob scan. -/
theorem c8_counterexample :
    resolve_port c8_fs c8_pe (some "/dev/missing") = (.exit 1, []) ∧
    (Res.exit 1 : Res String) ≠ .ok "/dev/missing" ∧
    resolve_port c8_fs c8_pe (some "") =
      (.ok "/dev/ttyUSB7", portGlobPatterns) := by
  refine ⟨by decide, by decide, by decide⟩

/-- C8 as amended: an explicitly supplied non-empty port that exists on
the filesystem is returned verbatim with no glob scan; a supplied port
that does not exist causes an error exit, still with no glob scan; and
when no port is supplied and no glob pattern matches any path, the
resolution fails with an error — in the burn flow, before any external
command is run. -/
theorem c8_amended (fs fs2 : FS) (pe pe2 : PortEnv) (p q : String)
    (env : SBEnv) (keyArg : Option String)
    (hp : p ≠ "") (hex : fs.fileExists p = true)
    (hq : q ≠ "") (hqnex : fs2.fileExists q = false)
    (hga : pe2.globAvailable = true)
    (hglob : pe2.globTtyUSB = [] ∧ pe2.globCuUsb = [] ∧ pe2.globCuSLAB = [])
    (henvglob : env.portEnv.globTtyUSB = [] ∧ env.portEnv.globCuUsb = [] ∧
      env.portEnv.globCuSLAB = []) :
    resolve_port fs pe (some p) = (.ok p, []) ∧
    resolve_port fs2 pe2 (some q) = (.exit 1, []) ∧
    resolve_port fs2 pe2 none = (.exit 1, portGlobPatterns) ∧
    burn_secure_boot env none keyArg = ([], .exit 1) := by
  obtain ⟨hg1, hg2, hg3⟩ := hglob
  obtain ⟨he1, he2, he3⟩ := henvglob
  have hdata : ∀ s : String, s ≠ "" → s.data.isEmpty = false := by
    intro s hs
    cases hd : s.data with
    | nil =>
      refine absurd ?_ hs
      cases s with
      | mk d =>
        simp only at hd
        subst hd
        rfl
    | cons c t => rfl
  refine ⟨?_, ?_, ?_, ?_⟩
  · simp [resolve_port, hdata p hp, hex]
  · simp [resolve_port, hdata q hq, hqnex]
  · simp [resolve_port, resolve_port_auto, hga, hg1, hg2, hg3]
  · simp only [burn_secure_boot]
    split
    · rfl
    · have hr : resolve_port env.fs env.portEnv none =
          (.exit 1, if env.portEnv.globAvailable then portGlobPatterns
            else []) := by
        simp only [resolve_port, resolve_port_auto, he1, he2, he3]
        cases env.portEnv.globAvailable <;> simp
      rw [hr]

/-- A burn-flow world with no port supplied and no glob match, for the
C8 witness. -/
def c8_flow_env : SBEnv where
  ctx := { projectDir := "/p", pioenv := "e", progname := "firmware" }
  fs := ⟨fun p => p == "/p/esp32_secure_boot.pem", fun _ => true,
    fun _ => some "-----BEGIN EC KEY-----\n-----END EC KEY-----",
    fun _ => none⟩
  sdkconfig := none
  sub := ⟨fun _ => true⟩
  portEnv := ⟨true, [], [], []⟩
  device := ⟨none, none⟩
  promptInput := .interrupt
  opensslOk := true
  tmpPath := "/tmp/k.bin"
  burnKeyOk := true
  burnEfuseOk := true
  burnEfuseAlready := false

/-- C8 witness: the amended statement at a filesystem where only
/dev/ttyUSB0 exists, with empty glob results and a burn-flow world
whose key file is valid. -/
theorem c8_witness :
    resolve_port
        ⟨fun p => p == "/dev/ttyUSB0", fun _ => false, fun _ => none,
          fun _ => none⟩ c8_pe (some "/dev/ttyUSB0") =
      (.ok "/dev/ttyUSB0", []) ∧
    resolve_port c8_fs
        ⟨true, [], [], []⟩ (some "/dev/gone") = (.exit 1, []) ∧
    resolve_port c8_fs ⟨true, [], [], []⟩ none =
      (.exit 1, portGlobPatterns) ∧
    burn_secure_boot c8_flow_env none none = ([], .exit 1) :=
  c8_amended _ _ _ _ _ _ c8_flow_env none (by decide) (by decide)
    (by decide) (by decide) (by rfl) ⟨by rfl, by rfl, by rfl⟩
    ⟨by decide, by decide, by decide⟩

/-- One summary line keeps secure boot and flash encryption parsed
False when the line carries a recognised false/disable token or no
recognised true/enable token for the respective field. -/
lemma parse_summary_line_false (st : SummaryState) (line : String)
    (hsb : st.sb = false) (hfe : st.fe = false)
    (h1 : sb_line line = true →
      (sb_false_tok line = true ∨ sb_true_tok line = false))
    (h2 : fe_line line = true →
      (fe_false_tok line = true ∨ fe_true_tok line = false)) :
    (parse_summary_line st line).sb = false ∧
    (parse_summary_line st line).fe = false := by
  unfold parse_summary_line
  repeat' split
  all_goals simp_all
  all_goals ((repeat' split) <;> simp_all)

/-- The whole summary line loop keeps both fields False under the
per-line conditions of parse_summary_line_false. -/
lemma parse_lines_false (lines : List String) (st : SummaryState)
    (hsb : st.sb = false) (hfe : st.fe = false)
    (h1 : ∀ l ∈ lines, sb_line l = true →
      (sb_false_tok l = true ∨ sb_true_tok l = false))
    (h2 : ∀ l ∈ lines, fe_line l = true →
      (fe_false_tok l = true ∨ fe_true_tok l = false)) :
    (lines.foldl parse_summary_line st).sb = false ∧
    (lines.foldl parse_summary_line st).fe = false := by
  induction lines generalizing st with
  | nil => exact ⟨hsb, hfe⟩
  | cons l ls ih =>
    simp only [List.foldl_cons]
    obtain ⟨hs, hf⟩ := parse_summary_line_false st l hsb hfe
      (h1 l (List.mem_cons_self _ _)) (h2 l (List.mem_cons_self _ _))
    exact ih _ hs hf (fun x hx => h1 x (List.mem_cons_of_mem _ hx))
      (fun x hx => h2 x (List.mem_cons_of_mem _ hx))

/-- C3 counterexample: a summary whose SECURE_BOOT_EN and
SPI_BOOT_CRYPT_CNT lines carry no recognised token ("= garb") is
reported by the inspector as a definite pair of booleans
(some false, some false) — "Disabled" — not as the indeterminate none
the claim states for unrecognised tokens. -/
theorem c3_counterexample :
    show_device_info
        (some "SECURE_BOOT_EN (BLOCK0) = garb\nSPI_BOOT_CRYPT_CNT (BLOCK0) = garb") =
      .info (some false) (some false) "Unknown" ∧
    (some false : Option Bool) ≠ none :=
  ⟨by decide, by decide⟩

/-- C3 as amended: when every SECURE_BOOT_EN line carries a recognised
false token or no recognised true token, and every SPI_BOOT_CRYPT_CNT
line carries a recognised disable token or no recognised enable token,
the inspector reports secure boot disabled and flash encryption
disabled (a definite False); in particular an unrecognised value token
leaves the field at its initialisation value False — reported as
disabled, never as an indeterminate state.  (Indeterminate is possible
only when the summary subprocess itself fails, where the function exits
instead of reporting.) -/
theorem c3_amended (out : String)
    (h1 : ∀ l ∈ pyLines out, sb_line l = true →
      (sb_false_tok l = true ∨ sb_true_tok l = false))
    (h2 : ∀ l ∈ pyLines out, fe_line l = true →
      (fe_false_tok l = true ∨ fe_true_tok l = false)) :
    show_device_info (some out) =
      .info (some false) (some false) (parse_summary out).chipType := by
  obtain ⟨hs, hf⟩ :=
    parse_lines_false (pyLines out) init_summary_state rfl rfl h1 h2
  simp only [show_device_info, parse_summary] at *
  rw [hs, hf]

/-- C3 witness: the fixture of the claim, with a False secure-boot line
and a Disable flash-encryption line, is reported as disabled on both
fields. -/
theorem c3_witness :
    show_device_info
        (some "SECURE_BOOT_EN (BLOCK0) Secure boot = False\nSPI_BOOT_CRYPT_CNT (BLOCK0) = Disable") =
      .info (some false) (some false)
        (parse_summary
          "SECURE_BOOT_EN (BLOCK0) Secure boot = False\nSPI_BOOT_CRYPT_CNT (BLOCK0) = Disable").chipType :=
  c3_amended _ (by decide) (by decide)

/-- When the operator does not type the literal BURN at the shared
confirmation, burn_secure_boot never reaches a burn command. -/
lemma burn_secure_boot_no_burn (env : SBEnv) (port keyPath : Option String)
    (h : env.promptInput ≠ .typed "BURN") :
    ∀ c ∈ (burn_secure_boot env port keyPath).1, isBurnCmd c = false := by
  intro c hc
  have hv := validate_pre_burn_checks_no_burn env.ctx env.fs env.sub
    (flow_key env.ctx.projectDir env.sdkconfig keyPath)
  simp only [burn_secure_boot] at hc
  repeat' split at hc
  all_goals
    first
      | exact absurd (prompt_burn_confirmation_none (by assumption)) h
      | (simp only [List.mem_append, List.mem_cons, List.not_mem_nil,
           or_false, false_or] at hc
         repeat'
           (first
             | exact hv _ hc
             | (subst hc; rfl)
             | rcases hc with hc | hc))

/-- When the operator does not type the literal BURN at the inline
confirmation of burn_efuse.py, burn_efuse never reaches a burn
command. -/
lemma burn_efuse_flow_no_burn (benv : BEEnv) (bport : Option String)
    (h : benv.promptInput ≠ .typed "BURN") :
    ∀ c ∈ (burn_efuse_flow benv bport).1, isBurnCmd c = false := by
  intro c hc
  simp only [burn_efuse_flow] at hc
  repeat' split at hc
  all_goals
    first
      | exact absurd (burn_efuse_confirmation_none (by assumption)) h
      | (simp only [List.mem_cons, List.not_mem_nil, or_false] at hc
         repeat' (subst hc; rfl))

/-- C1: for every operator input at a burn confirmation prompt other
than the exact literal BURN, including a keyboard interrupt, the burn
flows terminate without ever invoking a vendor eFuse burn command
(burn_efuse or burn-key): every command of the run's trace is a
non-burn command, in burn_efuse_secure_boot.burn_secure_boot and in
burn_efuse.burn_efuse alike. -/
theorem c1_decline_never_burns (env : SBEnv) (port keyPath : Option String)
    (benv : BEEnv) (bport : Option String)
    (h1 : env.promptInput ≠ .typed "BURN")
    (h2 : benv.promptInput ≠ .typed "BURN") :
    (burn_secure_boot env port keyPath).1.all (fun c => !isBurnCmd c) = true ∧
    (burn_efuse_flow benv bport).1.all (fun c => !isBurnCmd c) = true := by
  constructor
  · rw [List.all_eq_true]
    intro c hc
    simp [burn_secure_boot_no_burn env port keyPath h1 c hc]
  · rw [List.all_eq_true]
    intro c hc
    simp [burn_efuse_flow_no_burn benv bport h2 c hc]

/-- The world of the C1 witness: a fully provisioned device whose
operator interrupts the shared prompt. -/
def c1_env : SBEnv :=
  { c8_flow_env with
    fs := ⟨fun p => p == "/p/esp32_secure_boot.pem" || p == "/dev/ttyUSB0" ||
        p == "/p/.pio/build/e/bootloader.bin" ||
        p == "/p/.pio/build/e/firmware.bin",
      fun _ => true,
      fun _ => some "-----BEGIN EC KEY-----\n-----END EC KEY-----",
      fun _ => some 0⟩
    device := ⟨some summary_enabled,
      some "BLOCK_KEY0: 00000000 00000000 00000000 00000000"⟩
    promptInput := .interrupt }

/-- The world of the C1 witness for burn_efuse.py: the operator types
"n" instead of BURN. -/
def c1_benv : BEEnv where
  globAvailable := true
  globTtyUSB := []
  globCuUsb := []
  globCuSLAB := []
  summary := some summary_enabled
  promptInput := .typed "n"
  burnOk := true

/-- C1 witness: with an interrupt at the shared prompt and a typed "n"
at the inline prompt, neither flow's trace contains a burn command. -/
theorem c1_witness :
    (burn_secure_boot c1_env (some "/dev/ttyUSB0") none).1.all
      (fun c => !isBurnCmd c) = true ∧
    (burn_efuse_flow c1_benv (some "/dev/ttyUSB0")).1.all
      (fun c => !isBurnCmd c) = true :=
  c1_decline_never_burns c1_env (some "/dev/ttyUSB0") none c1_benv
    (some "/dev/ttyUSB0") (by decide) (by decide)

/-- The world of the C2 counterexample: the inspector reports secure
boot enabled, the key block reads all-zero, every validation succeeds
and the operator confirms with BURN. -/
def c2_env : SBEnv where
  ctx := { projectDir := "/p", pioenv := "e", progname := "firmware" }
  fs := ⟨fun p => p == "/k.pem" || p == "/dev/ttyUSB0" ||
      p == "/p/.pio/build/e/bootloader.bin" ||
      p == "/p/.pio/build/e/firmware.bin",
    fun p => p == "/k.pem",
    fun p => if p == "/k.pem" then
        some "-----BEGIN EC KEY-----\n-----END EC KEY-----" else none,
    fun _ => some 0⟩
  sdkconfig := none
  sub := ⟨fun _ => true⟩
  portEnv := ⟨true, [], [], []⟩
  device := ⟨some summary_enabled,
    some "BLOCK_KEY0: 00000000 00000000 00000000 00000000"⟩
  promptInput := .typed "BURN"
  opensslOk := true
  tmpPath := "/tmp/k.bin"
  burnKeyOk := true
  burnEfuseOk := true
  burnEfuseAlready := false

/-- C2 counterexample: in a device state the inspector reports as
secure-boot enabled (but whose key block reads zero), the secure-boot
burn flow does not exit without burning: it completes a run whose trace
contains vendor burn commands, contradicting the claim that every
enabled state exits successfully with no burn command. -/
theorem c2_counterexample :
    show_device_info c2_env.device.summary =
      .info (some true) (some false) "ESP32-C3" ∧
    (burn_secure_boot c2_env (some "/dev/ttyUSB0") (some "/k.pem")).2 = .ret ∧
    (burn_secure_boot c2_env (some "/dev/ttyUSB0") (some "/k.pem")).1.any
      isBurnCmd = true :=
  ⟨by decide, by decide, by decide⟩

/-- C2 as amended: the burn flow of burn_efuse_secure_boot.py is
idempotent only for the fully enabled state: when the inspector reports
secure boot enabled AND the key block already reads non-zero, it exits
with status 0 and its trace contains no burn command; the orchestrator
step of enable_secureboot.py returns without burning whenever the
inspector reports secure boot enabled. -/
theorem c2_amended (env : SBEnv) (port keyPath : Option String)
    (p chip : String) (gl : List String) (fe : Option Bool) (ch : String)
    (env2 : SBEnv) (p2 k2 : String) (fe2 : Option Bool) (ch2 : String)
    (hkey : validate_key_file env.fs
      (flow_key env.ctx.projectDir env.sdkconfig keyPath) = true)
    (hport : resolve_port env.fs env.portEnv port = (.ok p, gl))
    (hacc : verify_device_accessible env.device.summary = true)
    (hchip : detect_chip_type env.device.summary = some chip)
    (hpre : (validate_pre_burn_checks env.ctx env.fs env.sub
      (flow_key env.ctx.projectDir env.sdkconfig keyPath)).2 = true)
    (hsb : show_device_info env.device.summary = .info (some true) fe ch)
    (hhk : has_key_state env.device.dumpBlocks = some true)
    (hsb2 : show_device_info env2.device.summary = .info (some true) fe2 ch2) :
    ((burn_secure_boot env port keyPath).2 = .exit 0 ∧
     (burn_secure_boot env port keyPath).1.all (fun c => !isBurnCmd c) = true) ∧
    burn_secure_boot_efuse env2 p2 k2 = ([Cmd.espefuseSummary p2], .ret) := by
  refine ⟨?_, ?_⟩
  · have hflow : burn_secure_boot env port keyPath =
        ([Cmd.espefuseSummary p, Cmd.espefuseSummary p] ++
          (validate_pre_burn_checks env.ctx env.fs env.sub
            (flow_key env.ctx.projectDir env.sdkconfig keyPath)).1 ++
          [Cmd.espefuseSummary p, Cmd.espefuseDumpBlocks p chip "BLOCK_KEY0"],
          .exit 0) := by
      simp only [burn_secure_boot, hkey, hport, hacc, hchip, hpre, hsb, hhk]
      simp
    rw [hflow]
    refine ⟨rfl, ?_⟩
    have hv := validate_pre_burn_checks_no_burn env.ctx env.fs env.sub
      (flow_key env.ctx.projectDir env.sdkconfig keyPath)
    rw [List.all_eq_true]
    intro x hx
    simp only [List.mem_append, List.mem_cons, List.not_mem_nil, or_false] at hx
    repeat'
      (first
        | (rw [Bool.not_eq_true', ← Bool.not_eq_true]; simp [hv _ hx])
        | (subst hx; rfl)
        | rcases hx with hx | hx)
  · simp only [burn_secure_boot_efuse, hsb2]
    simp

/-- The world of the C2 witness: as the counterexample but with a
non-zero word in the key block, the fully enabled idempotent state. -/
def c2w_env : SBEnv :=
  { c2_env with
    device := ⟨some summary_enabled,
      some "BLOCK_KEY0: 3babe8ee 00000000 00000000 00000000"⟩ }

/-- C2 witness: the amended statement in the fully enabled state — the
flow exits 0 with no burn command in its trace, and the orchestrator
step returns after its summary query alone. -/
theorem c2_witness :
    ((burn_secure_boot c2w_env (some "/dev/ttyUSB0") (some "/k.pem")).2 =
        .exit 0 ∧
     (burn_secure_boot c2w_env (some "/dev/ttyUSB0") (some "/k.pem")).1.all
        (fun c => !isBurnCmd c) = true) ∧
    burn_secure_boot_efuse c2w_env "/dev/ttyUSB0" "/k.pem" =
      ([Cmd.espefuseSummary "/dev/ttyUSB0"], .ret) :=
  c2_amended c2w_env (some "/dev/ttyUSB0") (some "/k.pem")
    "/dev/ttyUSB0" "esp32c3" [] (some false) "ESP32-C3"
    c2w_env "/dev/ttyUSB0" "/k.pem" (some false) "ESP32-C3"
    (by decide) (by decide) (by decide) (by decide) (by decide)
    (by decide) (by decide) (by decide)

/-- The characters of a joined string list are the concatenation of the
characters of its elements. -/
lemma joinStrings_data (l : List String) :
    (joinStrings l).data = (l.map String.data).flatten := by
  induction l with
  | nil => rfl
  | cons s t ih => simp [joinStrings, String.data_append, ih]

/-- Every token the hex findall produces has exactly n characters, all
lowercase hex digits. -/
lemma findallHex_mem (n : Nat) (s : String) :
    ∀ t ∈ findallHex n s,
      t.data.length = n ∧ t.data.all isHexLowerChar = true := by
  intro t ht
  simp only [findallHex, List.mem_map, List.mem_filter] at ht
  obtain ⟨r, ⟨_, hr⟩, rfl⟩ := ht
  simp only [Bool.and_eq_true, beq_iff_eq] at hr
  exact hr

/-- Every byte token extracted from the dump_blocks output has exactly
two lowercase hex characters. -/
lemma extract_hex_bytes_mem (out : String) :
    ∀ t ∈ extract_hex_bytes out,
      t.data.length = 2 ∧ t.data.all isHexLowerChar = true := by
  have hgen : ∀ (lines : List String) (acc : List String),
      (∀ t ∈ acc, t.data.length = 2 ∧ t.data.all isHexLowerChar = true) →
      ∀ t ∈ lines.foldl
        (fun acc line =>
          match afterFirst [':'] line.data with
          | some dataPart => acc ++ findallHex 2 (String.mk dataPart)
          | none => acc) acc,
        t.data.length = 2 ∧ t.data.all isHexLowerChar = true := by
    intro lines
    induction lines with
    | nil => intro acc hacc t ht; exact hacc t ht
    | cons l ls ih =>
      intro acc hacc t ht
      simp only [List.foldl_cons] at ht
      refine ih _ ?_ t ht
      cases haf : afterFirst [':'] l.data with
      | none => simpa [haf] using hacc
      | some dp =>
        simp only [haf]
        intro x hx
        rcases List.mem_append.mp hx with hx | hx
        · exact hacc x hx
        · exact findallHex_mem 2 _ x hx
  exact hgen _ [] (by simp)

/-- The word-reassembly loop only rearranges tokens of its input. -/
lemma le_reassemble_mem (hb : List String) :
    ∀ x ∈ le_reassemble hb, x ∈ hb := by
  intro x hx
  simp only [le_reassemble, List.mem_flatten, List.mem_map] at hx
  obtain ⟨l, ⟨w, _, rfl⟩, hxl⟩ := hx
  exact List.mem_of_mem_drop
    (List.mem_of_mem_take (List.mem_reverse.mp hxl))

/-- With at least 32 byte tokens available, the reassembly has exactly
32 tokens (eight words of four). -/
lemma le_reassemble_length (hb : List String) (h : 32 ≤ hb.length) :
    (le_reassemble hb).length = 32 := by
  simp only [le_reassemble, List.length_flatten, List.map_map]
  have hw : ∀ w ∈ List.range 8,
      (List.length ∘ fun w => ((hb.drop (4 * w)).take 4).reverse) w = 4 := by
    intro w hw
    simp only [List.mem_range] at hw
    simp [List.length_take, List.length_drop]
    omega
  rw [List.map_congr_left hw]
  simp

/-- The code's reassembly of the first eight words equals the
spec-worded construction (take the first 32, chunk into eight 4-byte
words, reverse each). -/
lemma le_reassemble_eq_spec (hb : List String) :
    spec_le_digest hb = joinStrings (le_reassemble hb) := by
  unfold spec_le_digest le_reassemble
  congr 1
  congr 1
  refine List.map_congr_left ?_
  intro w hw
  simp only [List.mem_range] at hw
  congr 1
  rw [List.drop_take, List.take_take]
  congr 1
  omega

/-- Sum of lengths over two-character tokens. -/
lemma sum_map_const_two {l : List String}
    (h : ∀ x ∈ l, x.data.length = 2) :
    (l.map (fun t => t.data.length)).sum = 2 * l.length := by
  induction l with
  | nil => simp
  | cons s t ih =>
    simp only [List.map_cons, List.sum_cons, List.length_cons,
      h s (List.mem_cons_self _ _)]
    rw [ih (fun x hx => h x (List.mem_cons_of_mem _ hx))]
    ring

/-- String length is the length of the character list. -/
lemma str_length_data (s : String) : s.length = s.data.length := rfl

/-- The reassembled digest has 64 characters: 8 words of 4 byte tokens
of 2 characters each. -/
lemma joined_length (hb : List String) (h32 : 32 ≤ hb.length)
    (htok : ∀ t ∈ hb, t.data.length = 2) :
    (joinStrings (le_reassemble hb)).length = 64 := by
  rw [str_length_data, joinStrings_data, List.length_flatten, List.map_map]
  have hcomp : (List.map (List.length ∘ String.data) (le_reassemble hb)).sum =
      (List.map (fun t => t.data.length) (le_reassemble hb)).sum := rfl
  rw [hcomp, sum_map_const_two
    (fun x hx => htok x (le_reassemble_mem hb x hx)),
    le_reassemble_length hb h32]

/-- Lowercasing fixes a lowercase hex digit. -/
lemma lowerChar_hex {c : Char} (h : isHexLowerChar c = true) :
    lowerChar c = c := by
  have h' : c.toNat ≤ 57 ∨ 97 ≤ c.toNat := by
    simp only [isHexLowerChar, Bool.or_eq_true, Bool.and_eq_true,
      decide_eq_true_eq] at h
    omega
  unfold lowerChar
  rw [if_neg]
  simp only [Bool.and_eq_true, decide_eq_true_eq, not_and]
  omega

/-- Python lower is the identity on strings of lowercase hex digits. -/
lemma pyLower_fixed (s : String) (h : s.data.all isHexLowerChar = true) :
    pyLower s = s := by
  unfold pyLower
  rw [List.all_eq_true] at h
  rw [List.map_congr_left (fun c hc => lowerChar_hex (h c hc)), List.map_id']

/-- Every character of the reassembled digest is a lowercase hex
digit. -/
lemma joined_all_hex (hb : List String)
    (htok : ∀ t ∈ hb, t.data.all isHexLowerChar = true) :
    (joinStrings (le_reassemble hb)).data.all isHexLowerChar = true := by
  rw [joinStrings_data, List.all_eq_true]
  intro c hc
  rw [List.mem_flatten] at hc
  obtain ⟨l, hl, hcl⟩ := hc
  rw [List.mem_map] at hl
  obtain ⟨t, ht, rfl⟩ := hl
  have hx := htok t (le_reassemble_mem hb t ht)
  rw [List.all_eq_true] at hx
  exact hx c hcl

/-- C6: for every dump_blocks output whose data lines (the text after
each colon) contain at least 32 two-hex-digit byte tokens, the device
key-digest reader returns exactly the 64-character lowercase hex string
obtained by taking the first 32 byte tokens, grouping them into eight
consecutive 4-byte words and reversing the byte order within each word
(spec_le_digest); and the comparison tail of check_secure_boot_key.main
compares that string for equality against the (externally computed)
lowercase SHA-256 hex digest of the DER-encoded public key, exiting 0
exactly on equality. -/
theorem c6_digest_reassembly (out kd : String)
    (h : 32 ≤ (extract_hex_bytes out).length) :
    get_device_key_digest (some out) none =
      some (spec_le_digest (extract_hex_bytes out)) ∧
    (spec_le_digest (extract_hex_bytes out)).length = 64 ∧
    (spec_le_digest (extract_hex_bytes out)).data.all isHexLowerChar = true ∧
    check_key_main true (some kd) (get_device_key_digest (some out) none) =
      (if kd == spec_le_digest (extract_hex_bytes out) then 0 else 1) := by
  have htokl : ∀ t ∈ extract_hex_bytes out, t.data.length = 2 :=
    fun t ht => (extract_hex_bytes_mem out t ht).1
  have htokh : ∀ t ∈ extract_hex_bytes out, t.data.all isHexLowerChar = true :=
    fun t ht => (extract_hex_bytes_mem out t ht).2
  have hlen := joined_length (extract_hex_bytes out) h htokl
  have hspec := le_reassemble_eq_spec (extract_hex_bytes out)
  have hhex := joined_all_hex (extract_hex_bytes out) htokh
  have hfix := pyLower_fixed _ hhex
  have hget : get_device_key_digest (some out) none =
      some (joinStrings (le_reassemble (extract_hex_bytes out))) := by
    simp only [get_device_key_digest, h, if_true, hlen, hfix]
    simp
  refine ⟨?_, ?_, ?_, ?_⟩
  · rw [hget, hspec]
  · rw [hspec]
    exact hlen
  · rw [hspec]
    exact hhex
  · rw [hget, hspec]
    simp [check_key_main]

/-- The dump_blocks fixture of the C6 witness: a block header line and
two data lines of 16 byte tokens each. -/
def c6_out : String :=
  "BLOCK_KEY0 (BLOCK4):\n  00000000: 3b ab e8 ee 22 79 12 b9 aa bb cc dd 01 02 03 04\n  00000010: 11 22 33 44 55 66 77 88 99 00 aa bb cc dd ee ff"

/-- C6 witness: the theorem at the concrete fixture, with the matching
key digest on the comparison side. -/
theorem c6_witness :
    get_device_key_digest (some c6_out) none =
      some (spec_le_digest (extract_hex_bytes c6_out)) ∧
    (spec_le_digest (extract_hex_bytes c6_out)).length = 64 ∧
    (spec_le_digest (extract_hex_bytes c6_out)).data.all isHexLowerChar = true ∧
    check_key_main true
        (some "eee8ab3bb9127922ddccbbaa040302014433221188776655bbaa0099ffeeddcc")
        (get_device_key_digest (some c6_out) none) =
      (if ("eee8ab3bb9127922ddccbbaa040302014433221188776655bbaa0099ffeeddcc" ==
          spec_le_digest (extract_hex_bytes c6_out)) then 0 else 1) :=
  c6_digest_reassembly c6_out _ (by decide)

end ESPWiFi
